import Mathlib

/-!
# Verification of the chronos logging package

Shallow embedding of the `chronos` Go package (levels.go, logperiod.go,
config.go, main.go) together with proofs about its severity table, rotation
filename derivation, dispatcher filtering, and lifecycle operations.

Modelling conventions:
* Go `map[string]int` becomes an association list; the comma-ok lookup is
  `Option`-valued and the plain indexing read applies Go's zero-value default.
* `time.Time` is modelled as the absolute count of seconds since
  00:00:00 on January 1 of year 1 (proleptic Gregorian, UTC), which is the
  absolute timeline Go's `time` package itself reduces to.  The civil-date
  decomposition, weekday and `ISOWeek` are translated from Go's
  `time.absDate` / `time.ISOWeek`.
* Side effects (console lines, the buffered channel, handler invocations,
  the package-level `logger` pointer) are carried in an explicit state
  record; a Go panic is modelled as `Option.none`.
-/

namespace Chronos

/-! ## levels.go -/

/-- Level name constant `INFO` from levels.go. -/
def INFO : String := "INFO"

/-- Level name constant `DEBUG` from levels.go. -/
def DEBUG : String := "DEBUG"

/-- Level name constant `WARN` from levels.go. -/
def WARN : String := "WARN"

/-- Level name constant `ERROR` from levels.go. -/
def ERROR : String := "ERROR"

/-- Level name constant `FATAL` from levels.go. -/
def FATAL : String := "FATAL"

/-- The entries of the Go map `logLevels` in levels.go, in source order:
`{INFO: 1, DEBUG: 2, WARN: 3, ERROR: 4, FATAL: 5}`. -/
def logLevelsEntries : List (String × Nat) :=
  [(INFO, 1), (DEBUG, 2), (WARN, 3), (ERROR, 4), (FATAL, 5)]

/-- The comma-ok form `v, ok := logLevels[k]` of reading the `logLevels`
map: `some` rank when the name is present, `none` otherwise. -/
def logLevelsLookup (k : String) : Option Nat :=
  logLevelsEntries.lookup k

/-- The plain indexing form `logLevels[k]`: a missing key yields Go's zero
value `0`. -/
def logLevels (k : String) : Nat :=
  (logLevelsLookup k).getD 0

/-! ## Decimal formatting (Go `time.Format` / `fmt.Sprintf("%0Nd", _)`)

Go renders the numeric fields of a timestamp as zero-padded decimal:
the year with at least four digits, month/day/hour/minute/second/week
with at least two.  `digits` is the plain decimal numeral (most
significant digit first) and `pad w n` left-pads it with `'0'` to width
`w`. -/

/-- Fuel-driven decimal rendering; with fuel above `n` it computes the
plain decimal numeral of `n`, most significant digit first. -/
def digitsAux : Nat → Nat → List Char
  | 0, _ => []
  | fuel + 1, n =>
    if n < 10 then [Nat.digitChar n]
    else digitsAux fuel (n / 10) ++ [Nat.digitChar (n % 10)]

/-- Decimal digit characters of `n`, most significant first; `['0']` for 0. -/
def digits (n : Nat) : List Char := digitsAux (n + 1) n

/-- Left-pad the decimal numeral of `n` with `'0'` to width `w`
(Go's `%0wd`). -/
def pad (w n : Nat) : List Char :=
  List.replicate (w - (digits n).length) '0' ++ digits n

/-- Numeric value of a digit character. -/
def charVal (c : Char) : Nat := c.toNat - 48

/-- Read a decimal numeral back to a number (left fold, leading zeros
are harmless). -/
def decodeDigits (l : List Char) : Nat :=
  l.foldl (fun a c => a * 10 + charVal c) 0

/-! ## Time model

`Time` is the absolute second count since 00:00:00 UTC, January 1 of
year 1 (proleptic Gregorian).  `yearYday` is Go's `time.absDate` cycle
decomposition restricted to the day count, `monthDay` its month/day
step, `isoWeekOf` is Go's `time.ISOWeek`. -/

/-- A timestamp: seconds since 00:00:00 on January 1 of year 1. -/
abbrev Time := Nat

/-- Days elapsed since January 1 of year 1 (that day itself is day 0,
a Monday). -/
def daysOf (t : Time) : Nat := t / 86400

/-- Hour of day, 0–23 (Go format `15`). -/
def hourOf (t : Time) : Nat := t % 86400 / 3600

/-- Minute of hour, 0–59 (Go format `04`). -/
def minuteOf (t : Time) : Nat := t % 3600 / 60

/-- Second of minute, 0–59 (Go format `05`). -/
def secondOf (t : Time) : Nat := t % 60

/-- Gregorian leap-year predicate, as Go's `time.isLeap`. -/
def isLeap (y : Nat) : Bool :=
  y % 4 == 0 && (y % 100 != 0 || y % 400 == 0)

/-- Year and zero-based day-of-year for a day count since January 1 of
year 1; the 400/100/4/1-year cycle subdivision of Go's `time.absDate`. -/
def yearYday (d : Nat) : Nat × Nat :=
  let n400 := d / 146097
  let d1 := d - 146097 * n400
  let n100 := d1 / 36524 - d1 / 36524 / 4
  let d2 := d1 - 36524 * n100
  let n4 := d2 / 1461
  let d3 := d2 - 1461 * n4
  let n1 := d3 / 365 - d3 / 365 / 4
  let d4 := d3 - 365 * n1
  (400 * n400 + 100 * n100 + 4 * n4 + n1 + 1, d4)

/-- Cumulative day counts before each month in a non-leap year
(Go's `daysBefore` table, index 0–12). -/
def daysBefore : List Nat :=
  [0, 31, 59, 90, 120, 151, 181, 212, 243, 273, 304, 334, 365]

/-- Month (1-based) and day-of-month from a leap flag and a zero-based
day-of-year; the month/day step of Go's `time.absDate(·, full:=true)`. -/
def monthDay (leap : Bool) (yday : Nat) : Nat × Nat :=
  if leap && yday == 59 then (2, 29)
  else
    let day := if leap && yday > 59 then yday - 1 else yday
    let m0 := day / 31
    let «end» := daysBefore.getD (m0 + 1) 0
    let (m1, begin) :=
      if day ≥ «end» then (m0 + 1, «end») else (m0, daysBefore.getD m0 0)
    (m1 + 1, day - begin + 1)

/-- Calendar year of a timestamp. -/
def yearOf (t : Time) : Nat := (yearYday (daysOf t)).1

/-- Zero-based day-of-year of a timestamp. -/
def ydayOf (t : Time) : Nat := (yearYday (daysOf t)).2

/-- Calendar month (1–12) of a timestamp. -/
def monthOf (t : Time) : Nat :=
  (monthDay (isLeap (yearOf t)) (ydayOf t)).1

/-- Day of month of a timestamp. -/
def dayOf (t : Time) : Nat :=
  (monthDay (isLeap (yearOf t)) (ydayOf t)).2

/-- The day count of the Thursday of the ISO week containing day `d`
(weeks run Monday–Sunday; day 0 is a Monday).  This is Go's
`ISOWeek` shift `d += Thursday - weekday` with the Sunday adjustment. -/
def isoThursday (d : Nat) : Nat := d - d % 7 + 3

/-- ISO-8601 week-numbering year and week of a timestamp, as Go's
`time.Time.ISOWeek`: the year and `yday/7 + 1` of the Thursday of the
containing week. -/
def isoWeekOf (t : Time) : Nat × Nat :=
  let p := yearYday (isoThursday (daysOf t))
  (p.1, p.2 / 7 + 1)

/-! ## logperiod.go and config.go -/

/-- `LogPeriod` is a string type in logperiod.go. -/
abbrev LogPeriod := String

/-- `LogPeriodHour` constant. -/
def LogPeriodHour : LogPeriod := "Hour"

/-- `LogPeriodDay` constant. -/
def LogPeriodDay : LogPeriod := "Day"

/-- `LogPeriodWeek` constant. -/
def LogPeriodWeek : LogPeriod := "Week"

/-- `LogPeriodMonth` constant. -/
def LogPeriodMonth : LogPeriod := "Month"

/-- `LogPeriodYear` constant. -/
def LogPeriodYear : LogPeriod := "Year"

/-- `Config` from config.go.  Field defaults are Go's zero values, so a
`&Config{}` literal is `{}` here. -/
structure Config where
  AppName : String := ""
  Location : String := ""
  FilePeriod : LogPeriod := ""
  Level : String := ""
  AutoStop : Bool := false
deriving Repr, DecidableEq

/-! ## main.go: Log, Logging, filename -/

/-- `Log` from main.go: one entry with timestamp, level and message. -/
structure Log where
  TimeStamp : Time
  Level : String
  Message : String
deriving Repr, DecidableEq

/-- `Logging` from main.go.  The buffered channel's contents live in the
package state; the struct keeps the configuration, destination path and
numeric threshold. -/
structure Logging where
  config : Config
  path : String
  logLevel : Nat
deriving Repr, DecidableEq

/-- Go `t.Format("2006-01-02T15")` as a character list: zero-padded
year (width 4), month, day, hour (width 2). -/
def fmtYMDH (t : Time) : List Char :=
  pad 4 (yearOf t) ++ '-' :: pad 2 (monthOf t) ++
    '-' :: pad 2 (dayOf t) ++ 'T' :: pad 2 (hourOf t)

/-- Go `t.Format("2006-01-02")` as a character list. -/
def fmtYMD (t : Time) : List Char :=
  pad 4 (yearOf t) ++ '-' :: pad 2 (monthOf t) ++ '-' :: pad 2 (dayOf t)

/-- Go `fmt.Sprintf("%04d-%02d", y, w)` on the `ISOWeek` pair, as a
character list. -/
def fmtYW (t : Time) : List Char :=
  pad 4 (isoWeekOf t).1 ++ '-' :: pad 2 (isoWeekOf t).2

/-- Go `t.Format("2006-01")` as a character list. -/
def fmtYM (t : Time) : List Char :=
  pad 4 (yearOf t) ++ '-' :: pad 2 (monthOf t)

/-- Go `t.Format("2006")` as a character list. -/
def fmtY (t : Time) : List Char :=
  pad 4 (yearOf t)

/-- `(*Logging).filename` from main.go: switch on the configured
`FilePeriod`, defaulting to the Day format for any other value, then
wrap the date part as `nexus_<part>.log`. -/
def Logging.filename (l : Logging) (t : Time) : String :=
  if l.config.FilePeriod = LogPeriodHour then "nexus_" ++ String.mk (fmtYMDH t) ++ ".log"
  else if l.config.FilePeriod = LogPeriodDay then "nexus_" ++ String.mk (fmtYMD t) ++ ".log"
  else if l.config.FilePeriod = LogPeriodWeek then "nexus_" ++ String.mk (fmtYW t) ++ ".log"
  else if l.config.FilePeriod = LogPeriodMonth then "nexus_" ++ String.mk (fmtYM t) ++ ".log"
  else if l.config.FilePeriod = LogPeriodYear then "nexus_" ++ String.mk (fmtY t) ++ ".log"
  else "nexus_" ++ String.mk (fmtYMD t) ++ ".log"

/-! ## Package state and operations (main.go)

The package-level mutable state: the `logger` pointer, the contents of
the buffered channel `logChan`, the console lines written by `addLog`,
the count of started writer goroutines, and the external-handler
registration with the record of its invocations.  A Go panic is an
`Option.none` result. -/

/-- Observable package-level state.  `chanClosed` records whether the
current logger's channel was closed (sending on it, or closing it again,
panics in Go); `writers` counts writer goroutines started by `Init`. -/
structure PkgState where
  logger : Option Logging := none
  queue : List Log := []
  chanClosed : Bool := false
  console : List String := []
  writers : Nat := 0
  handlerSet : Bool := false
  handlerCalls : List Log := []
deriving Repr, DecidableEq

/-- The package state at process start: `var logger *Logging` is nil and
nothing has happened. -/
def initialState : PkgState := {}

/-- ANSI color constants of `addLog` in main.go. -/
def colorRed : String := "\x1b[31m"

/-- ANSI green. -/
def colorGreen : String := "\x1b[32m"

/-- ANSI yellow. -/
def colorYellow : String := "\x1b[33m"

/-- ANSI blue. -/
def colorBlue : String := "\x1b[34m"

/-- ANSI purple. -/
def colorPurple : String := "\x1b[35m"

/-- ANSI reset. -/
def colorReset : String := "\x1b[0m"

/-- The level→color switch of `addLog` in main.go. -/
def colorFor (level : String) : String :=
  if level = "FATAL" then colorPurple
  else if level = "ERROR" then colorRed
  else if level = "WARN" then colorYellow
  else if level = "INFO" then colorGreen
  else if level = "DEBUG" then colorBlue
  else colorReset

/-- Go `t.Format("15:04:05")`. -/
def fmtHMS (t : Time) : String :=
  String.mk (pad 2 (hourOf t) ++ ':' :: pad 2 (minuteOf t) ++
    ':' :: pad 2 (secondOf t))

/-- The console line printed by `addLog`:
`fmt.Printf("%s%s\t%s\t%s%s\n", color, ts, level, message, reset)`. -/
def consoleLine (log : Log) : String :=
  colorFor log.Level ++ fmtHMS log.TimeStamp ++ "\t" ++ log.Level ++
    "\t" ++ log.Message ++ colorReset ++ "\n"

/-- `(*Logging).addLog` from main.go: return if the package-level
`logger` is nil, drop the entry if its rank is below the threshold,
otherwise print the colorized console line and send on the channel.
`recv` is the method receiver; every call site passes the package-level
pointer, and the nil-`logger` guard returns before the receiver is
dereferenced, so a nil receiver never faults through this API.

Modelled from the spec: the external-handler dispatch step and the
`SetHandler` registration are exercised by main_test.go but their
implementation is not among the provided sources.  Per §4.3 of the
design, every entry that clears the severity threshold is delivered
synchronously to the registered handler (if any) with exactly its
(timestamp, level, message), before the enqueue. -/
def addLog (s : PkgState) (recv : Option Logging) (log : Log) : Option PkgState :=
  match s.logger with
  | none => some s
  | some _ =>
    match recv with
    | none => none
    | some l =>
      if logLevels log.Level < l.logLevel then some s
      else
        let s1 := { s with console := s.console ++ [consoleLine log] }
        let s2 :=
          if s1.handlerSet then { s1 with handlerCalls := s1.handlerCalls ++ [log] }
          else s1
        if s2.chanClosed then none
        else some { s2 with queue := s2.queue ++ [log] }

/-- Modelled from the spec: `SetHandler` (§4.5) replaces the
process-wide external-handler reference; passing none clears it.  The
callback itself is abstracted to a presence flag, its invocations being
recorded in `handlerCalls`. -/
def SetHandler (s : PkgState) (h : Bool) : PkgState :=
  { s with handlerSet := h }

/-- `newLogging` from main.go.  The `os.MkdirAll` call is a filesystem
effect outside the model; the fresh buffered channel is the empty
`queue` installed by `Init`. -/
def newLogging (cfg : Config) (logLevel : Nat) : Logging :=
  { config := cfg, path := cfg.Location, logLevel := logLevel }

/-- Default log location chosen by `Init` when `cfg.Location` is empty,
parameterized by `runtime.GOOS`. -/
def defaultLocation (goos : String) (app : String) : String :=
  if goos = "windows" then "C:\\ProgramData\\" ++ app ++ "\\logs"
  else "/var/log/" ++ app

/-- `Init` from main.go: fill defaults, validate the level name against
`logLevels` (comma-ok lookup), and on success install a fresh logger
with an empty open channel and start one writer goroutine.  The result
pairs the new package state with the returned error (`none` on
success); on error the state is returned unchanged.  Directory creation
and the AutoStop signal registration are OS effects outside the model. -/
def Init (goos : String) (s : PkgState) (cfg0 : Option Config) : PkgState × Option String :=
  let cfg := cfg0.getD {}
  if cfg.AppName = "" then (s, some "AppName is required")
  else
    let cfg :=
      if cfg.Location = "" then { cfg with Location := defaultLocation goos cfg.AppName }
      else cfg
    let cfg :=
      if cfg.FilePeriod = "" then { cfg with FilePeriod := LogPeriodHour } else cfg
    let cfg := if cfg.Level = "" then { cfg with Level := INFO } else cfg
    match logLevelsLookup cfg.Level with
    | none => (s, some ("invalid log level: " ++ cfg.Level))
    | some logLevel =>
      ({ s with logger := some (newLogging cfg logLevel), queue := [],
                chanClosed := false, writers := s.writers + 1 }, none)

/-- `Stop` from main.go: under the package mutex, return if `logger` is
already nil, otherwise close the channel and clear the pointer.  `none`
models the panic Go raises on closing an already-closed channel; the
nil guard makes that unreachable through the API. -/
def Stop (s : PkgState) : Option PkgState :=
  match s.logger with
  | none => some s
  | some _ =>
    if s.chanClosed then none
    else some { s with logger := none, chanClosed := true }

/-- `Error` from main.go: build the entry with the current time and call
`logger.addLog` on the package-level pointer. -/
def Error (s : PkgState) (now : Time) (msg : String) : Option PkgState :=
  addLog s s.logger { TimeStamp := now, Level := "ERROR", Message := msg }

/-- `Info` from main.go. -/
def Info (s : PkgState) (now : Time) (msg : String) : Option PkgState :=
  addLog s s.logger { TimeStamp := now, Level := "INFO", Message := msg }

/-- `Debug` from main.go. -/
def Debug (s : PkgState) (now : Time) (msg : String) : Option PkgState :=
  addLog s s.logger { TimeStamp := now, Level := "DEBUG", Message := msg }

/-- `Warn` from main.go. -/
def Warn (s : PkgState) (now : Time) (msg : String) : Option PkgState :=
  addLog s s.logger { TimeStamp := now, Level := "WARN", Message := msg }

/-- `Fatal` from main.go. -/
def Fatal (s : PkgState) (now : Time) (msg : String) : Option PkgState :=
  addLog s s.logger { TimeStamp := now, Level := "FATAL", Message := msg }

/-! ## Spec-side notions used to state the claims -/

/-- The rotation bucket of a timestamp for a given period, as the spec
describes it (§4.1): calendar hour / calendar day / ISO-8601 week /
calendar month / calendar year, encoded as the list of identifying
fields.  Periods outside the recognized five share the Day bucket,
matching the documented fallback. -/
def bucket (p : LogPeriod) (t : Time) : List Nat :=
  if p = LogPeriodHour then [yearOf t, monthOf t, dayOf t, hourOf t]
  else if p = LogPeriodDay then [yearOf t, monthOf t, dayOf t]
  else if p = LogPeriodWeek then [(isoWeekOf t).1, (isoWeekOf t).2]
  else if p = LogPeriodMonth then [yearOf t, monthOf t]
  else if p = LogPeriodYear then [yearOf t]
  else [yearOf t, monthOf t, dayOf t]

/-- A logger configured with the given rotation period and otherwise
default fields, for concrete instantiations. -/
def periodLogger (p : LogPeriod) : Logging :=
  { config := { FilePeriod := p }, path := "", logLevel := 0 }

/-- A concrete state with a logger running, for concrete instantiations. -/
def runningState : PkgState :=
  { initialState with logger := some (periodLogger LogPeriodDay) }

/-- The state `runningState` reaches after `Stop`. -/
def stoppedState : PkgState :=
  { initialState with logger := none, chanClosed := true }

/-- A logger with threshold rank 3 (the rank of WARN), for concrete
instantiations. -/
def warnLogger : Logging := { config := {}, path := "", logLevel := 3 }

/-- A state running `warnLogger`. -/
def warnState : PkgState := { initialState with logger := some warnLogger }

/-! ## Lemmas: decimal rendering -/

theorem digitsAux_fuel : ∀ {fuel1 fuel2 n : Nat}, n < fuel1 → n < fuel2 →
    digitsAux fuel1 n = digitsAux fuel2 n
  | f1 + 1, f2 + 1, n, h1, h2 => by
    simp only [digitsAux]
    split
    · rfl
    · rename_i hn
      have hd : n / 10 < n := Nat.div_lt_self (by omega) (by omega)
      rw [digitsAux_fuel (show n / 10 < f1 by omega) (show n / 10 < f2 by omega)]

theorem digitsAux_succ (fuel n : Nat) : digitsAux (fuel + 1) n =
    if n < 10 then [Nat.digitChar n]
    else digitsAux fuel (n / 10) ++ [Nat.digitChar (n % 10)] := rfl

/-- The recurrence satisfied by `digits`. -/
theorem digits_def (n : Nat) : digits n =
    if n < 10 then [Nat.digitChar n]
    else digits (n / 10) ++ [Nat.digitChar (n % 10)] := by
  show digitsAux (n + 1) n = _
  rw [digitsAux_succ]
  by_cases h : n < 10
  · rw [if_pos h, if_pos h]
  · rw [if_neg h, if_neg h]
    have hd : n / 10 < n := Nat.div_lt_self (by omega) (by omega)
    rw [digitsAux_fuel (show n / 10 < n by omega) (show n / 10 < n / 10 + 1 by omega)]
    rfl

theorem charVal_digitChar : ∀ n < 10, charVal (Nat.digitChar n) = n := by decide

theorem decodeDigits_append (l : List Char) (c : Char) :
    decodeDigits (l ++ [c]) = decodeDigits l * 10 + charVal c := by
  simp [decodeDigits, List.foldl_append]

theorem foldl_replicate_zero (k : Nat) :
    List.foldl (fun a c => a * 10 + charVal c) 0 (List.replicate k '0') = 0 := by
  induction k with
  | zero => rfl
  | succ m ih =>
    rw [List.replicate_succ, List.foldl_cons]
    simpa [charVal] using ih

theorem decodeDigits_digits (n : Nat) : decodeDigits (digits n) = n := by
  induction n using Nat.strong_induction_on with
  | _ n ih =>
    rw [digits_def]
    split
    · rename_i h
      simpa [decodeDigits, List.foldl] using charVal_digitChar n h
    · rename_i h
      rw [decodeDigits_append]
      rw [ih (n / 10) (Nat.div_lt_self (by omega) (by omega))]
      rw [charVal_digitChar _ (Nat.mod_lt _ (by omega))]
      omega

theorem decodeDigits_pad (w n : Nat) : decodeDigits (pad w n) = n := by
  unfold pad decodeDigits
  rw [List.foldl_append, foldl_replicate_zero]
  exact decodeDigits_digits n

theorem pad_inj {w a b : Nat} (h : pad w a = pad w b) : a = b := by
  have hc := congrArg decodeDigits h
  rwa [decodeDigits_pad, decodeDigits_pad] at hc

theorem digits_length_le_two {n : Nat} (h : n < 100) : (digits n).length ≤ 2 := by
  rw [digits_def]
  split
  · simp
  · rename_i h1
    rw [digits_def]
    have h2 : n / 10 < 10 := by omega
    simp [h2]

theorem pad_length {w n : Nat} (h : (digits n).length ≤ w) : (pad w n).length = w := by
  unfold pad
  simp only [List.length_append, List.length_replicate]
  omega

theorem pad_two_length {n : Nat} (h : n < 100) : (pad 2 n).length = 2 :=
  pad_length (digits_length_le_two h)

theorem peel_sep_pad_two {u v : List Char} {c d : Char} {a b : Nat}
    (ha : a < 100) (hb : b < 100)
    (h : u ++ c :: pad 2 a = v ++ d :: pad 2 b) : u = v ∧ a = b := by
  have hlen : (c :: pad 2 a).length = (d :: pad 2 b).length := by
    simp [pad_two_length ha, pad_two_length hb]
  obtain ⟨h1, h2⟩ := List.append_inj' h hlen
  simp only [List.cons.injEq] at h2
  exact ⟨h1, pad_inj h2.2⟩

/-! ## Lemmas: bounds on the timestamp fields -/

theorem hourOf_lt (t : Time) : hourOf t < 24 := by
  unfold hourOf; omega

theorem minuteOf_lt (t : Time) : minuteOf t < 60 := by
  unfold minuteOf; omega

theorem secondOf_lt (t : Time) : secondOf t < 60 := by
  unfold secondOf; omega

theorem yearYday_snd_le (d : Nat) : (yearYday d).2 ≤ 365 := by
  unfold yearYday
  dsimp only
  omega

set_option maxRecDepth 4000 in
theorem monthDay_bounds : ∀ yd < 366, ∀ leap : Bool,
    1 ≤ (monthDay leap yd).1 ∧ (monthDay leap yd).1 < 100 ∧
    1 ≤ (monthDay leap yd).2 ∧ (monthDay leap yd).2 < 100 := by decide

theorem ydayOf_le (t : Time) : ydayOf t ≤ 365 := by
  unfold ydayOf
  exact yearYday_snd_le _

theorem monthOf_lt (t : Time) : monthOf t < 100 :=
  (monthDay_bounds (ydayOf t) (by have := ydayOf_le t; omega) _).2.1

theorem dayOf_lt (t : Time) : dayOf t < 100 :=
  (monthDay_bounds (ydayOf t) (by have := ydayOf_le t; omega) _).2.2.2

theorem isoWeek_snd_lt (t : Time) : (isoWeekOf t).2 < 100 := by
  unfold isoWeekOf
  dsimp only
  have := yearYday_snd_le (isoThursday (daysOf t))
  omega

theorem hourOf_lt_100 (t : Time) : hourOf t < 100 := by
  have := hourOf_lt t; omega

/-! ## Lemmas: each date format determines exactly its fields -/

theorem data_mk (l : List Char) : (String.mk l).data = l := rfl

theorem wrap_inj {a b : List Char}
    (h : "nexus_" ++ String.mk a ++ ".log" = "nexus_" ++ String.mk b ++ ".log") :
    a = b := by
  have hd := congrArg String.data h
  simp only [String.data_append, data_mk] at hd
  obtain ⟨h1, -⟩ := List.append_inj' hd rfl
  obtain ⟨-, h2⟩ := List.append_inj h1 rfl
  exact h2

theorem fmtYMDH_inj {t1 t2 : Time} (h : fmtYMDH t1 = fmtYMDH t2) :
    yearOf t1 = yearOf t2 ∧ monthOf t1 = monthOf t2 ∧ dayOf t1 = dayOf t2 ∧
    hourOf t1 = hourOf t2 := by
  unfold fmtYMDH at h
  obtain ⟨h1, hh⟩ := peel_sep_pad_two (hourOf_lt_100 t1) (hourOf_lt_100 t2) h
  obtain ⟨h2, hd⟩ := peel_sep_pad_two (dayOf_lt t1) (dayOf_lt t2) h1
  obtain ⟨h3, hm⟩ := peel_sep_pad_two (monthOf_lt t1) (monthOf_lt t2) h2
  exact ⟨pad_inj h3, hm, hd, hh⟩

theorem fmtYMD_inj {t1 t2 : Time} (h : fmtYMD t1 = fmtYMD t2) :
    yearOf t1 = yearOf t2 ∧ monthOf t1 = monthOf t2 ∧ dayOf t1 = dayOf t2 := by
  unfold fmtYMD at h
  obtain ⟨h1, hd⟩ := peel_sep_pad_two (dayOf_lt t1) (dayOf_lt t2) h
  obtain ⟨h2, hm⟩ := peel_sep_pad_two (monthOf_lt t1) (monthOf_lt t2) h1
  exact ⟨pad_inj h2, hm, hd⟩

theorem fmtYW_inj {t1 t2 : Time} (h : fmtYW t1 = fmtYW t2) :
    (isoWeekOf t1).1 = (isoWeekOf t2).1 ∧ (isoWeekOf t1).2 = (isoWeekOf t2).2 := by
  unfold fmtYW at h
  obtain ⟨h1, hw⟩ := peel_sep_pad_two (isoWeek_snd_lt t1) (isoWeek_snd_lt t2) h
  exact ⟨pad_inj h1, hw⟩

theorem fmtYM_inj {t1 t2 : Time} (h : fmtYM t1 = fmtYM t2) :
    yearOf t1 = yearOf t2 ∧ monthOf t1 = monthOf t2 := by
  unfold fmtYM at h
  obtain ⟨h1, hm⟩ := peel_sep_pad_two (monthOf_lt t1) (monthOf_lt t2) h
  exact ⟨pad_inj h1, hm⟩

theorem fmtY_inj {t1 t2 : Time} (h : fmtY t1 = fmtY t2) : yearOf t1 = yearOf t2 := by
  unfold fmtY at h
  exact pad_inj h

/-! ## Lemmas: the five branches of `filename` -/

theorem filename_hour {l : Logging} (hl : l.config.FilePeriod = LogPeriodHour)
    (t : Time) : l.filename t = "nexus_" ++ String.mk (fmtYMDH t) ++ ".log" := by
  unfold Logging.filename
  rw [hl, if_pos rfl]

theorem filename_day {l : Logging} (hl : l.config.FilePeriod = LogPeriodDay)
    (t : Time) : l.filename t = "nexus_" ++ String.mk (fmtYMD t) ++ ".log" := by
  unfold Logging.filename
  rw [hl, if_neg (by decide), if_pos rfl]

theorem filename_week {l : Logging} (hl : l.config.FilePeriod = LogPeriodWeek)
    (t : Time) : l.filename t = "nexus_" ++ String.mk (fmtYW t) ++ ".log" := by
  unfold Logging.filename
  rw [hl, if_neg (by decide), if_neg (by decide), if_pos rfl]

theorem filename_month {l : Logging} (hl : l.config.FilePeriod = LogPeriodMonth)
    (t : Time) : l.filename t = "nexus_" ++ String.mk (fmtYM t) ++ ".log" := by
  unfold Logging.filename
  rw [hl, if_neg (by decide), if_neg (by decide), if_neg (by decide), if_pos rfl]

theorem filename_year {l : Logging} (hl : l.config.FilePeriod = LogPeriodYear)
    (t : Time) : l.filename t = "nexus_" ++ String.mk (fmtY t) ++ ".log" := by
  unfold Logging.filename
  rw [hl, if_neg (by decide), if_neg (by decide), if_neg (by decide),
    if_neg (by decide), if_pos rfl]

theorem filename_default {l : Logging}
    (h1 : l.config.FilePeriod ≠ LogPeriodHour) (h2 : l.config.FilePeriod ≠ LogPeriodDay)
    (h3 : l.config.FilePeriod ≠ LogPeriodWeek) (h4 : l.config.FilePeriod ≠ LogPeriodMonth)
    (h5 : l.config.FilePeriod ≠ LogPeriodYear) (t : Time) :
    l.filename t = "nexus_" ++ String.mk (fmtYMD t) ++ ".log" := by
  unfold Logging.filename
  rw [if_neg h1, if_neg h2, if_neg h3, if_neg h4, if_neg h5]

/-! ## Claim theorems -/

/-- C1 (code bug): the severity table does hold exactly the five level
names with distinct integer ranks, but it orders INFO below DEBUG:
`logLevels` maps INFO to 1 and DEBUG to 2, so the claimed
`rank(DEBUG) < rank(INFO)` fails — the numeric order contradicts the
severity order DEBUG < INFO < WARN < ERROR < FATAL that config.go's own
documentation states. -/
theorem C1_severity_table_order_violation :
    logLevels INFO = 1 ∧ logLevels DEBUG = 2 ∧ logLevels WARN = 3 ∧
    logLevels ERROR = 4 ∧ logLevels FATAL = 5 ∧
    logLevels INFO < logLevels DEBUG ∧
    ¬ logLevels DEBUG < logLevels INFO := by decide

theorem bucket_hour (t : Time) :
    bucket LogPeriodHour t = [yearOf t, monthOf t, dayOf t, hourOf t] := rfl

theorem bucket_day (t : Time) :
    bucket LogPeriodDay t = [yearOf t, monthOf t, dayOf t] := rfl

theorem bucket_week (t : Time) :
    bucket LogPeriodWeek t = [(isoWeekOf t).1, (isoWeekOf t).2] := rfl

theorem bucket_month (t : Time) :
    bucket LogPeriodMonth t = [yearOf t, monthOf t] := rfl

theorem bucket_year (t : Time) :
    bucket LogPeriodYear t = [yearOf t] := rfl

/-- C3: for each fixed rotation period among Hour, Day, Week, Month and
Year, two timestamps map to the same filename exactly when they lie in
the same rotation bucket (calendar hour / calendar day / ISO week /
calendar month / calendar year respectively). -/
theorem C3_filename_eq_iff_same_bucket (p : LogPeriod)
    (hp : p = LogPeriodHour ∨ p = LogPeriodDay ∨ p = LogPeriodWeek ∨
      p = LogPeriodMonth ∨ p = LogPeriodYear)
    (l : Logging) (hl : l.config.FilePeriod = p) (t1 t2 : Time) :
    l.filename t1 = l.filename t2 ↔ bucket p t1 = bucket p t2 := by
  rcases hp with h | h | h | h | h
  · subst h
    rw [filename_hour hl, filename_hour hl, bucket_hour, bucket_hour]
    constructor
    · intro hf
      obtain ⟨hy, hm, hd, hh⟩ := fmtYMDH_inj (wrap_inj hf)
      rw [hy, hm, hd, hh]
    · intro hb
      simp only [List.cons.injEq, and_true] at hb
      obtain ⟨hy, hm, hd, hh⟩ := hb
      unfold fmtYMDH
      rw [hy, hm, hd, hh]
  · subst h
    rw [filename_day hl, filename_day hl, bucket_day, bucket_day]
    constructor
    · intro hf
      obtain ⟨hy, hm, hd⟩ := fmtYMD_inj (wrap_inj hf)
      rw [hy, hm, hd]
    · intro hb
      simp only [List.cons.injEq, and_true] at hb
      obtain ⟨hy, hm, hd⟩ := hb
      unfold fmtYMD
      rw [hy, hm, hd]
  · subst h
    rw [filename_week hl, filename_week hl, bucket_week, bucket_week]
    constructor
    · intro hf
      obtain ⟨hy, hw⟩ := fmtYW_inj (wrap_inj hf)
      rw [hy, hw]
    · intro hb
      simp only [List.cons.injEq, and_true] at hb
      obtain ⟨hy, hw⟩ := hb
      unfold fmtYW
      rw [hy, hw]
  · subst h
    rw [filename_month hl, filename_month hl, bucket_month, bucket_month]
    constructor
    · intro hf
      obtain ⟨hy, hm⟩ := fmtYM_inj (wrap_inj hf)
      rw [hy, hm]
    · intro hb
      simp only [List.cons.injEq, and_true] at hb
      obtain ⟨hy, hm⟩ := hb
      unfold fmtYM
      rw [hy, hm]
  · subst h
    rw [filename_year hl, filename_year hl, bucket_year, bucket_year]
    constructor
    · intro hf
      have hy := fmtY_inj (wrap_inj hf)
      rw [hy]
    · intro hb
      simp only [List.cons.injEq, and_true] at hb
      unfold fmtY
      rw [hb]

/-- Witness for C3: two times one hour apart on the same day give the
same Day-period filename. -/
theorem C3_witness :
    (periodLogger LogPeriodDay).filename 3600 = (periodLogger LogPeriodDay).filename 7200 :=
  (C3_filename_eq_iff_same_bucket LogPeriodDay (Or.inr (Or.inl rfl))
    (periodLogger LogPeriodDay) rfl 3600 7200).mpr (by decide)

/-- C2: with a logger running, an open channel, a registered external
handler and an entry whose rank clears the threshold, `addLog` returns
normally and the handler is invoked exactly once, with precisely the
submitted entry (its timestamp, level and message unchanged). -/
theorem C2_handler_receives_exact_entry (s : PkgState) (l : Logging) (log : Log)
    (hl : s.logger = some l) (hopen : s.chanClosed = false)
    (hrank : l.logLevel ≤ logLevels log.Level) (hset : s.handlerSet = true) :
    ∃ s1, addLog s s.logger log = some s1 ∧
      s1.handlerCalls = s.handlerCalls ++ [log] := by
  unfold addLog
  rw [hl]
  dsimp only
  rw [if_neg (by omega), if_pos hset]
  dsimp only
  rw [if_neg (by simp [hopen])]
  exact ⟨_, rfl, rfl⟩

/-- Witness for C2: a concrete registered handler receives a concrete
INFO entry exactly once. -/
theorem C2_witness :
    ∃ s1, addLog (SetHandler runningState true)
        (SetHandler runningState true).logger
        { TimeStamp := 0, Level := "INFO", Message := "m" } = some s1 ∧
      s1.handlerCalls = (SetHandler runningState true).handlerCalls ++
        [{ TimeStamp := 0, Level := "INFO", Message := "m" }] :=
  C2_handler_receives_exact_entry (SetHandler runningState true)
    (periodLogger LogPeriodDay) { TimeStamp := 0, Level := "INFO", Message := "m" }
    rfl rfl (by decide) rfl

/-- C4: with a logger running, an entry whose rank is below the
threshold leaves the state completely unchanged (no console line, no
handler invocation, no enqueue — hence nothing for the writer to
persist), while an entry at or above the threshold is emitted: exactly
one console line is printed and the entry is enqueued once (and the
handler is invoked exactly when one is registered). -/
theorem C4_threshold_filtering (s : PkgState) (l : Logging) (log : Log)
    (hl : s.logger = some l) :
    (logLevels log.Level < l.logLevel → addLog s s.logger log = some s) ∧
    (l.logLevel ≤ logLevels log.Level → s.chanClosed = false →
      ∃ s1, addLog s s.logger log = some s1 ∧
        s1.console = s.console ++ [consoleLine log] ∧
        s1.queue = s.queue ++ [log] ∧
        s1.handlerCalls =
          (if s.handlerSet then s.handlerCalls ++ [log] else s.handlerCalls)) := by
  constructor
  · intro hlt
    unfold addLog
    rw [hl]
    dsimp only
    rw [if_pos hlt]
  · intro hrank hopen
    unfold addLog
    rw [hl]
    dsimp only
    rw [if_neg (by omega)]
    by_cases hh : s.handlerSet
    · rw [if_pos hh]
      dsimp only
      rw [if_neg (by simp [hopen])]
      refine ⟨_, rfl, rfl, rfl, ?_⟩
      rw [if_pos hh]
    · rw [if_neg hh]
      dsimp only
      rw [if_neg (by simp [hopen])]
      refine ⟨_, rfl, rfl, rfl, ?_⟩
      rw [if_neg hh]

/-- Witness for C4: with threshold rank 3 (WARN), a DEBUG entry (rank 2)
is dropped with no state change, and a WARN entry is emitted. -/
theorem C4_witness :
    (addLog warnState warnState.logger
        { TimeStamp := 0, Level := "DEBUG", Message := "m" } = some warnState) ∧
    ∃ s1, addLog warnState warnState.logger
        { TimeStamp := 0, Level := "WARN", Message := "m" } = some s1 ∧
      s1.console = warnState.console ++
        [consoleLine { TimeStamp := 0, Level := "WARN", Message := "m" }] ∧
      s1.queue = warnState.queue ++ [{ TimeStamp := 0, Level := "WARN", Message := "m" }] ∧
      s1.handlerCalls = (if warnState.handlerSet
        then warnState.handlerCalls ++ [{ TimeStamp := 0, Level := "WARN", Message := "m" }]
        else warnState.handlerCalls) :=
  ⟨(C4_threshold_filtering warnState warnLogger
      { TimeStamp := 0, Level := "DEBUG", Message := "m" } rfl).1 (by decide),
   (C4_threshold_filtering warnState warnLogger
      { TimeStamp := 0, Level := "WARN", Message := "m" } rfl).2 (by decide) rfl⟩

/-- C5: with period Week the filename embeds the ISO-8601
week-numbering year and week, not the calendar year: 2024-12-31 and
2025-01-01 both lie in ISO week 1 of 2025, and both map to
`nexus_2025-01.log` although their calendar years differ. -/
theorem C5_week_filename_uses_iso_year :
    yearOf (739250 * 86400) = 2024 ∧ monthOf (739250 * 86400) = 12 ∧
    dayOf (739250 * 86400) = 31 ∧
    yearOf (739251 * 86400) = 2025 ∧ monthOf (739251 * 86400) = 1 ∧
    dayOf (739251 * 86400) = 1 ∧
    isoWeekOf (739250 * 86400) = (2025, 1) ∧ isoWeekOf (739251 * 86400) = (2025, 1) ∧
    (periodLogger LogPeriodWeek).filename (739250 * 86400)
      = (periodLogger LogPeriodWeek).filename (739251 * 86400) ∧
    (periodLogger LogPeriodWeek).filename (739250 * 86400) = "nexus_2025-01.log" ∧
    yearOf (739250 * 86400) ≠ yearOf (739251 * 86400) := by decide

/-- C6: a configuration whose severity name is non-empty and not a key
of the severity table makes `Init` return an error and leave the
package state untouched: the logger pointer is not replaced, no queue
is created and no writer goroutine is started. -/
theorem C6_invalid_level_rejected (goos : String) (s : PkgState) (cfg : Config)
    (hne : cfg.Level ≠ "") (hbad : logLevelsLookup cfg.Level = none) :
    (Init goos s (some cfg)).1 = s ∧ ((Init goos s (some cfg)).2).isSome = true := by
  unfold Init
  dsimp only [Option.getD_some]
  by_cases happ : cfg.AppName = ""
  · rw [if_pos happ]
    exact ⟨rfl, rfl⟩
  · rw [if_neg happ]
    try dsimp only
    by_cases hloc : cfg.Location = ""
    · rw [if_pos hloc]
      try dsimp only
      by_cases hper : cfg.FilePeriod = ""
      · rw [if_pos hper]
        try dsimp only
        rw [if_neg hne]
        try dsimp only
        rw [hbad]
        exact ⟨rfl, rfl⟩
      · rw [if_neg hper]
        try dsimp only
        rw [if_neg hne]
        try dsimp only
        rw [hbad]
        exact ⟨rfl, rfl⟩
    · rw [if_neg hloc]
      try dsimp only
      by_cases hper : cfg.FilePeriod = ""
      · rw [if_pos hper]
        try dsimp only
        rw [if_neg hne]
        try dsimp only
        rw [hbad]
        exact ⟨rfl, rfl⟩
      · rw [if_neg hper]
        try dsimp only
        rw [if_neg hne]
        try dsimp only
        rw [hbad]
        exact ⟨rfl, rfl⟩

/-- Witness for C6: the unrecognized name TRACE is rejected and the
initial state survives unchanged. -/
theorem C6_witness :
    (Init "linux" initialState (some { AppName := "app", Level := "TRACE" })).1
      = initialState ∧
    ((Init "linux" initialState (some { AppName := "app", Level := "TRACE" })).2).isSome
      = true :=
  C6_invalid_level_rejected "linux" initialState
    { AppName := "app", Level := "TRACE" } (by decide) (by decide)

/-- C7: submitting through any level helper while no logger is running
is a silent no-op: the helper returns normally (no panic despite the
method call on the nil package-level pointer) and the state — console,
queue, handler record — is unchanged. -/
theorem C7_helpers_noop_when_not_running (s : PkgState) (now : Time) (msg : String)
    (h : s.logger = none) :
    Error s now msg = some s ∧ Info s now msg = some s ∧ Debug s now msg = some s ∧
    Warn s now msg = some s ∧ Fatal s now msg = some s := by
  unfold Error Info Debug Warn Fatal addLog
  rw [h]
  exact ⟨rfl, rfl, rfl, rfl, rfl⟩

/-- Witness for C7: all five helpers are no-ops on the uninitialized
state. -/
theorem C7_witness :
    Error initialState 0 "m" = some initialState ∧
    Info initialState 0 "m" = some initialState ∧
    Debug initialState 0 "m" = some initialState ∧
    Warn initialState 0 "m" = some initialState ∧
    Fatal initialState 0 "m" = some initialState :=
  C7_helpers_noop_when_not_running initialState 0 "m" rfl

/-- C8: `Stop` is idempotent: on a never-initialized state it is a
no-op that returns normally, and whenever a `Stop` completes it clears
the package-level logger reference and a second `Stop` is a no-op with
no error and no panic. -/
theorem C8_stop_idempotent (s : PkgState) :
    (s.logger = none → Stop s = some s) ∧
    ∀ s1, Stop s = some s1 → s1.logger = none ∧ Stop s1 = some s1 := by
  constructor
  · intro h
    unfold Stop
    rw [h]
  · intro s1 h
    unfold Stop at h
    match hl : s.logger with
    | none =>
      rw [hl] at h
      cases h
      unfold Stop
      rw [hl]
      exact ⟨rfl, rfl⟩
    | some l =>
      rw [hl] at h
      by_cases hc : s.chanClosed
      · rw [if_pos hc] at h
        cases h
      · rw [if_neg hc] at h
        cases h
        exact ⟨rfl, rfl⟩

/-- Witness for C8: stopping a running logger clears the reference and
a second Stop is a no-op; Stop is also a no-op on the fresh state. -/
theorem C8_witness :
    Stop initialState = some initialState ∧
    stoppedState.logger = none ∧ Stop stoppedState = some stoppedState :=
  ⟨(C8_stop_idempotent initialState).1 rfl,
   (C8_stop_idempotent runningState).2 stoppedState (by decide)⟩

/-- C9 (amended): for any timestamp, a period outside the five
recognized values yields the Day-format filename; and `Init` defaults
only an unset (empty) period to Hour, so for a logger produced by a
successful `Init` from a config with an empty period the fallback is
not reached — but a non-empty unrecognized period is passed through
unchanged (see the counterexample), so the fallback can be reached for
an `Init`-produced logger. -/
theorem C9_unknown_period_day_fallback :
    (∀ (l : Logging) (t : Time),
      l.config.FilePeriod ∉ [LogPeriodHour, LogPeriodDay, LogPeriodWeek,
        LogPeriodMonth, LogPeriodYear] →
      l.filename t = (periodLogger LogPeriodDay).filename t) ∧
    (∀ (goos : String) (s : PkgState) (cfg : Config),
      cfg.FilePeriod = "" → (Init goos s (some cfg)).2 = none →
      ∃ lg, (Init goos s (some cfg)).1.logger = some lg ∧
        lg.config.FilePeriod = LogPeriodHour) := by
  constructor
  · intro l t hp
    simp only [List.mem_cons, List.not_mem_nil, or_false, not_or] at hp
    obtain ⟨h1, h2, h3, h4, h5⟩ := hp
    rw [filename_default h1 h2 h3 h4 h5, filename_day rfl]
  · intro goos s cfg hfp herr
    unfold Init at herr ⊢
    dsimp only [Option.getD_some] at herr ⊢
    by_cases happ : cfg.AppName = ""
    · rw [if_pos happ] at herr
      simp at herr
    · rw [if_neg happ] at herr ⊢
      try dsimp only at herr ⊢
      by_cases hloc : cfg.Location = ""
      · rw [if_pos hloc] at herr ⊢
        try dsimp only at herr ⊢
        rw [if_pos hfp] at herr ⊢
        try dsimp only at herr ⊢
        by_cases hlev : cfg.Level = ""
        · rw [if_pos hlev] at herr ⊢
          exact ⟨_, rfl, rfl⟩
        · rw [if_neg hlev] at herr ⊢
          try dsimp only at herr ⊢
          cases hlook : logLevelsLookup cfg.Level with
          | none =>
            rw [hlook] at herr
            simp at herr
          | some lv =>
            exact ⟨_, rfl, rfl⟩
      · rw [if_neg hloc] at herr ⊢
        try dsimp only at herr ⊢
        rw [if_pos hfp] at herr ⊢
        try dsimp only at herr ⊢
        by_cases hlev : cfg.Level = ""
        · rw [if_pos hlev] at herr ⊢
          exact ⟨_, rfl, rfl⟩
        · rw [if_neg hlev] at herr ⊢
          try dsimp only at herr ⊢
          cases hlook : logLevelsLookup cfg.Level with
          | none =>
            rw [hlook] at herr
            simp at herr
          | some lv =>
            exact ⟨_, rfl, rfl⟩

/-- C9 counterexample: the claim that the fallback "is never reached
for a logger produced by Init" is false — Init validates nothing about
a non-empty period, so FilePeriod "Minute" flows through: Init
succeeds, installs a logger whose period is outside the five, and that
logger's filename is the Day-format fallback. -/
theorem C9_counterexample :
    (Init "linux" initialState (some { AppName := "app", FilePeriod := "Minute" })).2
      = none ∧
    ((Init "linux" initialState
        (some { AppName := "app", FilePeriod := "Minute" })).1.logger.map
      (fun l => (l.config.FilePeriod, l.filename 0)))
      = some ("Minute", "nexus_0001-01-01.log") ∧
    ("Minute" : String) ∉ ([LogPeriodHour, LogPeriodDay, LogPeriodWeek,
      LogPeriodMonth, LogPeriodYear] : List String) ∧
    (periodLogger LogPeriodDay).filename 0 = "nexus_0001-01-01.log" := by decide

/-- Witness for C9: the fallback equals the Day filename for a concrete
unknown period, and a successful Init from an empty period yields a
logger with period Hour. -/
theorem C9_witness :
    (periodLogger "Minute").filename 0 = (periodLogger LogPeriodDay).filename 0 ∧
    ∃ lg, (Init "linux" initialState (some { AppName := "app" })).1.logger = some lg ∧
      lg.config.FilePeriod = LogPeriodHour :=
  ⟨C9_unknown_period_day_fallback.1 (periodLogger "Minute") 0 (by decide),
   C9_unknown_period_day_fallback.2 "linux" initialState { AppName := "app" }
     rfl (by decide)⟩

/-- C10: filenames do not identify the rotation period: ISO week 1 of
2024 under period Week (e.g. 2024-01-04) and the month January 2024
under period Month (e.g. 2024-01-01) both yield `nexus_2024-01.log`. -/
theorem C10_week_month_filename_collision :
    (periodLogger LogPeriodWeek).config.FilePeriod
      ≠ (periodLogger LogPeriodMonth).config.FilePeriod ∧
    isoWeekOf (738888 * 86400) = (2024, 1) ∧
    yearOf (738885 * 86400) = 2024 ∧ monthOf (738885 * 86400) = 1 ∧
    dayOf (738888 * 86400) = 4 ∧ dayOf (738885 * 86400) = 1 ∧
    (periodLogger LogPeriodWeek).filename (738888 * 86400)
      = (periodLogger LogPeriodMonth).filename (738885 * 86400) ∧
    (periodLogger LogPeriodWeek).filename (738888 * 86400) = "nexus_2024-01.log" := by
  decide

end Chronos
